import Mathlib

/-!
Verification of the control-protocol multiplexer of the claude-code-sdk-go
repository.  The definitions below are a shallow embedding of the Go source:

* `handleControlRequest`, `handleCanUseTool`, `handleHookCallback`,
  `handleMCPMessage`, `sendSuccessResponse`, `sendErrorResponse` embed the
  control-request dispatcher of `pkg/claudecode/internal` (query handler).
* `processLines` / `runReadLoop` embed the demultiplexer read loop.
* `transportClose` / `clientClose` embed the two `Close` methods.
* `generateRequestID` embeds the outbound request-id generator.
* `queryRun` embeds the top-level `Query` function of `pkg/claudecode/query.go`.

Decoded JSON objects (`map[string]interface{}` in Go) are modelled as
association lists of `Json` values; `json.Unmarshal` (standard library,
external to the repository) is abstracted as a `decode` parameter.
-/

/-- A decoded JSON value, the counterpart of Go's `interface{}` after
`encoding/json` decoding. -/
inductive Json where
  | null : Json
  | bool : Bool → Json
  | num : Int → Json
  | str : String → Json
  | arr : List Json → Json
  | obj : List (String × Json) → Json
deriving Repr

/-- Fields of a decoded JSON object, the counterpart of Go's
`map[string]interface{}`. -/
abbrev JsonObj := List (String × Json)

/-- The Go type assertion `v.(string)`. -/
def Json.asStr : Json → Option String
  | .str s => some s
  | _ => none

/-- The Go type assertion `v.(map[string]interface{})`. -/
def Json.asObj : Json → Option JsonObj
  | .obj fields => some fields
  | _ => none

/-- `v, _ := data[key].(string)` — field access with the zero value `""`
as the default. -/
def lookupStr (data : JsonObj) (key : String) : String :=
  ((data.lookup key).bind Json.asStr).getD ""

/-- `v, _ := data[key].(map[string]interface{})` — field access with the nil
map as the default. -/
def lookupObj (data : JsonObj) (key : String) : JsonObj :=
  ((data.lookup key).bind Json.asObj).getD []

/-- One control response written to the transport: `sendSuccessResponse`
produces the `success` form, `sendErrorResponse` the `error` form
(`ControlResponse` / `ControlErrorResponse` in the Go types). -/
inductive ControlOutcome where
  | success (requestID : String) (response : JsonObj)
  | failure (requestID : String) (errorMsg : String)
deriving Repr

/-- The `request_id` carried by a control response. -/
def ControlOutcome.requestID : ControlOutcome → String
  | .success rid _ => rid
  | .failure rid _ => rid

/-- Whether a control response is the `success` form. -/
def ControlOutcome.isSuccess : ControlOutcome → Bool
  | .success _ _ => true
  | .failure _ _ => false

/-- Result of the `CanUseTool` callback (`PermissionResult` in the Go types):
`*PermissionResultAllow`, `*PermissionResultDeny`, or any other value of the
interface (including nil), which the dispatcher maps to a default allow. -/
inductive PermissionResult where
  | allow (behavior : String) (updatedInput : Option JsonObj)
      (updatedPermissions : Option Json)
  | deny (behavior : String) (message : String) (interrupt : Bool)
  | other
deriving Repr

/-- The `HookJSONOutput` struct returned by a hook callback. -/
structure HookJSONOutput where
  decision : Option String
  systemMessage : Option String
  hookSpecificOutput : Option Json

/-- The callback registry and configuration visible to the dispatcher:
`canUseTool`, `hookCallbacks` and `sdkMCPServers` fields of the query
handler.  Callbacks are pure functions returning `Except` for the Go
`(value, error)` pair; a hook callback may return a nil output pointer,
hence the inner `Option`. -/
structure DispatchEnv where
  canUseTool : Option (String → JsonObj → Except String PermissionResult)
  hookCallbacks : List (String × (JsonObj → Option String →
      Except String (Option HookJSONOutput)))
  sdkMCPServers : List String

/-- `sendSuccessResponse(requestID, response)`: one success control response
written to the transport. -/
def sendSuccessResponse (requestID : String) (response : JsonObj) :
    List ControlOutcome :=
  [ControlOutcome.success requestID response]

/-- `sendErrorResponse(requestID, errorMsg)`: one error control response
written to the transport. -/
def sendErrorResponse (requestID : String) (errorMsg : String) :
    List ControlOutcome :=
  [ControlOutcome.failure requestID errorMsg]

/-- `handleCanUseTool`: tool-permission requests.  With no registered
callback the response is a success carrying `behavior=allow`; otherwise the
callback result is serialized, and a callback error becomes an error
response. -/
def handleCanUseTool (env : DispatchEnv) (requestID : String)
    (request : JsonObj) : List ControlOutcome :=
  match env.canUseTool with
  | none => sendSuccessResponse requestID [("behavior", Json.str "allow")]
  | some cb =>
    let toolName := lookupStr request "tool_name"
    let input := lookupObj request "input"
    match cb toolName input with
    | Except.error e => sendErrorResponse requestID e
    | Except.ok result =>
      match result with
      | PermissionResult.allow behavior updatedInput updatedPermissions =>
        let r0 : JsonObj := [("behavior", Json.str behavior)]
        let r1 := match updatedInput with
          | some ui => r0 ++ [("updated_input", Json.obj ui)]
          | none => r0
        let r2 := match updatedPermissions with
          | some up => r1 ++ [("updated_permissions", up)]
          | none => r1
        sendSuccessResponse requestID r2
      | PermissionResult.deny behavior message interrupt =>
        let r0 : JsonObj :=
          [("behavior", Json.str behavior), ("message", Json.str message)]
        let r1 := if interrupt then r0 ++ [("interrupt", Json.bool true)] else r0
        sendSuccessResponse requestID r1
      | PermissionResult.other =>
        sendSuccessResponse requestID [("behavior", Json.str "allow")]

/-- `handleHookCallback`: look up the callback id; missing id or a callback
error becomes an error response, otherwise the output fields are serialized
into a success response. -/
def handleHookCallback (env : DispatchEnv) (requestID : String)
    (request : JsonObj) : List ControlOutcome :=
  let callbackID := lookupStr request "callback_id"
  let input := lookupObj request "input"
  let toolUseID := lookupStr request "tool_use_id"
  match env.hookCallbacks.lookup callbackID with
  | none => sendErrorResponse requestID ("callback not found: " ++ callbackID)
  | some cb =>
    let toolUseIDPtr := if toolUseID = "" then none else some toolUseID
    match cb input toolUseIDPtr with
    | Except.error e => sendErrorResponse requestID e
    | Except.ok output =>
      let response : JsonObj :=
        match output with
        | none => []
        | some o =>
          (match o.decision with
            | some d => [("decision", Json.str d)]
            | none => []) ++
          (match o.systemMessage with
            | some m => [("systemMessage", Json.str m)]
            | none => []) ++
          (match o.hookSpecificOutput with
            | some h => [("hookSpecificOutput", h)]
            | none => [])
      sendSuccessResponse requestID response

/-- `handleMCPMessage`: look up the named SDK MCP server; missing name
becomes an error response; a registered server is currently a stub and the
dispatcher sends a success response whose payload is
`{"result": "not implemented"}`. -/
def handleMCPMessage (env : DispatchEnv) (requestID : String)
    (request : JsonObj) : List ControlOutcome :=
  let serverName := lookupStr request "server_name"
  if env.sdkMCPServers.contains serverName then
    sendSuccessResponse requestID [("result", Json.str "not implemented")]
  else
    sendErrorResponse requestID ("SDK MCP server not found: " ++ serverName)

/-- `handleControlRequest`: extract `request_id` and `request`, then route by
`subtype`; a malformed `request` field or an unknown subtype becomes an error
response. -/
def handleControlRequest (env : DispatchEnv) (data : JsonObj) :
    List ControlOutcome :=
  let requestID := lookupStr data "request_id"
  match (data.lookup "request").bind Json.asObj with
  | none => sendErrorResponse requestID "invalid request format"
  | some request =>
    let subtype := lookupStr request "subtype"
    if subtype = "can_use_tool" then
      handleCanUseTool env requestID request
    else if subtype = "hook_callback" then
      handleHookCallback env requestID request
    else if subtype = "mcp_message" then
      handleMCPMessage env requestID request
    else
      sendErrorResponse requestID ("unknown control request subtype: " ++ subtype)

theorem handleCanUseTool_requestID (env : DispatchEnv) (rid : String)
    (request : JsonObj) :
    (handleCanUseTool env rid request).map ControlOutcome.requestID = [rid] := by
  unfold handleCanUseTool
  dsimp only
  split
  · rfl
  · split
    · rfl
    · split <;> rfl

theorem handleHookCallback_requestID (env : DispatchEnv) (rid : String)
    (request : JsonObj) :
    (handleHookCallback env rid request).map ControlOutcome.requestID = [rid] := by
  unfold handleHookCallback
  dsimp only
  split
  · rfl
  · split <;> rfl

theorem handleMCPMessage_requestID (env : DispatchEnv) (rid : String)
    (request : JsonObj) :
    (handleMCPMessage env rid request).map ControlOutcome.requestID = [rid] := by
  unfold handleMCPMessage
  dsimp only
  split <;> rfl

theorem handleControlRequest_requestID (env : DispatchEnv) (data : JsonObj) :
    (handleControlRequest env data).map ControlOutcome.requestID
      = [lookupStr data "request_id"] := by
  unfold handleControlRequest
  dsimp only
  cases (data.lookup "request").bind Json.asObj with
  | none => rfl
  | some request =>
    simp only []
    split
    · exact handleCanUseTool_requestID env _ request
    · split
      · exact handleHookCallback_requestID env _ request
      · split
        · exact handleMCPMessage_requestID env _ request
        · rfl

/-- C1: every inbound control request handled by the dispatcher — whichever
subtype it carries and whatever its callbacks do, errors included — produces
exactly one control response on the transport, and that response carries the
request's `request_id`. -/
theorem control_request_exactly_one_response (env : DispatchEnv)
    (data : JsonObj) (rid : String)
    (h : data.lookup "request_id" = some (Json.str rid)) :
    (handleControlRequest env data).length = 1 ∧
      (handleControlRequest env data).map ControlOutcome.requestID = [rid] := by
  have hmap := handleControlRequest_requestID env data
  have hrid : lookupStr data "request_id" = rid := by
    simp [lookupStr, h, Json.asStr]
  rw [hrid] at hmap
  refine ⟨?_, hmap⟩
  have := congrArg List.length hmap
  simpa using this

/-- Witness for C1: a concrete `can_use_tool` request with a registered
callback that fails; exactly one response, carrying `request_id` `"r9"`. -/
theorem control_request_exactly_one_response_witness :
    ((handleControlRequest
        { canUseTool := some (fun _ _ => Except.error "boom"),
          hookCallbacks := [], sdkMCPServers := [] }
        [("type", Json.str "control_request"),
         ("request_id", Json.str "r9"),
         ("request", Json.obj [("subtype", Json.str "can_use_tool")])]).length = 1)
    ∧ ((handleControlRequest
        { canUseTool := some (fun _ _ => Except.error "boom"),
          hookCallbacks := [], sdkMCPServers := [] }
        [("type", Json.str "control_request"),
         ("request_id", Json.str "r9"),
         ("request", Json.obj [("subtype", Json.str "can_use_tool")])]).map
          ControlOutcome.requestID = ["r9"]) :=
  control_request_exactly_one_response _ _ "r9" rfl

/-- C3: a `can_use_tool` control request with no registered permission
callback is answered by exactly one success response whose payload is
`{"behavior": "allow"}`, carrying the request's `request_id`. -/
theorem can_use_tool_default_allow (env : DispatchEnv) (data request : JsonObj)
    (rid : String)
    (hcb : env.canUseTool = none)
    (hrid : data.lookup "request_id" = some (Json.str rid))
    (hreq : data.lookup "request" = some (Json.obj request))
    (hsub : request.lookup "subtype" = some (Json.str "can_use_tool")) :
    handleControlRequest env data
      = [ControlOutcome.success rid [("behavior", Json.str "allow")]] := by
  unfold handleControlRequest
  rw [hreq]
  simp only [Option.some_bind]
  dsimp only [Json.asObj]
  rw [show lookupStr data "request_id" = rid by simp [lookupStr, hrid, Json.asStr]]
  rw [show lookupStr request "subtype" = "can_use_tool" by
    simp [lookupStr, hsub, Json.asStr]]
  simp [handleCanUseTool, hcb, sendSuccessResponse]

/-- Witness for C3: the spec's Scenario B input, with no permission callback
registered. -/
theorem can_use_tool_default_allow_witness :
    handleControlRequest
      { canUseTool := none, hookCallbacks := [], sdkMCPServers := [] }
      [("type", Json.str "control_request"),
       ("request_id", Json.str "r1"),
       ("request", Json.obj
         [("subtype", Json.str "can_use_tool"),
          ("tool_name", Json.str "Bash"),
          ("input", Json.obj [])])]
      = [ControlOutcome.success "r1" [("behavior", Json.str "allow")]] :=
  can_use_tool_default_allow _ _
    [("subtype", Json.str "can_use_tool"),
     ("tool_name", Json.str "Bash"),
     ("input", Json.obj [])] "r1" rfl rfl rfl rfl

/-- C4 counterexample: an `mcp_message` request naming the registered server
`"srv"` is answered by a success response (payload
`{"result": "not implemented"}`), not by a failure outcome as the claim
states. -/
theorem mcp_registered_server_success_counterexample :
    (handleControlRequest
      { canUseTool := none, hookCallbacks := [], sdkMCPServers := ["srv"] }
      [("type", Json.str "control_request"),
       ("request_id", Json.str "r1"),
       ("request", Json.obj
         [("subtype", Json.str "mcp_message"),
          ("server_name", Json.str "srv")])]
      = [ControlOutcome.success "r1" [("result", Json.str "not implemented")]])
    ∧ (handleControlRequest
      { canUseTool := none, hookCallbacks := [], sdkMCPServers := ["srv"] }
      [("type", Json.str "control_request"),
       ("request_id", Json.str "r1"),
       ("request", Json.obj
         [("subtype", Json.str "mcp_message"),
          ("server_name", Json.str "srv")])]).all ControlOutcome.isSuccess
      = true := by
  constructor
  · rfl
  · rfl

/-- C4 amended: for an `mcp_message` request whose `server_name` names a
registered SDK MCP server, the dispatcher replies with exactly one success
response whose payload is `{"result": "not implemented"}` and which carries
the request's `request_id`; it never stays silent. -/
theorem mcp_unimplemented_server_responds (env : DispatchEnv)
    (data request : JsonObj) (rid serverName : String)
    (hrid : data.lookup "request_id" = some (Json.str rid))
    (hreq : data.lookup "request" = some (Json.obj request))
    (hsub : request.lookup "subtype" = some (Json.str "mcp_message"))
    (hname : request.lookup "server_name" = some (Json.str serverName))
    (hmem : env.sdkMCPServers.contains serverName = true) :
    handleControlRequest env data
      = [ControlOutcome.success rid [("result", Json.str "not implemented")]] := by
  unfold handleControlRequest
  rw [hreq]
  simp only [Option.some_bind]
  dsimp only [Json.asObj]
  rw [show lookupStr data "request_id" = rid by simp [lookupStr, hrid, Json.asStr]]
  rw [show lookupStr request "subtype" = "mcp_message" by
    simp [lookupStr, hsub, Json.asStr]]
  simp only [if_neg (by decide : ¬("mcp_message" = "can_use_tool")),
    if_neg (by decide : ¬("mcp_message" = "hook_callback")), if_pos rfl]
  unfold handleMCPMessage
  rw [show lookupStr request "server_name" = serverName by
    simp [lookupStr, hname, Json.asStr]]
  rw [if_pos hmem]
  simp [sendSuccessResponse]

/-- Witness for C4's amended statement, at the concrete request of the
counterexample input but a different request id. -/
theorem mcp_unimplemented_server_responds_witness :
    handleControlRequest
      { canUseTool := none, hookCallbacks := [], sdkMCPServers := ["calc"] }
      [("type", Json.str "control_request"),
       ("request_id", Json.str "r2"),
       ("request", Json.obj
         [("subtype", Json.str "mcp_message"),
          ("server_name", Json.str "calc")])]
      = [ControlOutcome.success "r2" [("result", Json.str "not implemented")]] :=
  mcp_unimplemented_server_responds _ _
    [("subtype", Json.str "mcp_message"), ("server_name", Json.str "calc")]
    "r2" "calc" rfl rfl rfl rfl rfl

/-- An event delivered to the Error Sink (the `errors` channel):
`NewJSONDecodeError`, tagged with the offending raw line, or
`NewCLIConnectionError` for a transport read failure. -/
inductive ErrEvent where
  | jsonDecode (rawLine : String)
  | connection (message : String)
deriving Repr, DecidableEq

/-- How the transport stream ends for the read loop: a clean `io.EOF`, or
any other read error with its message. -/
inductive Terminator where
  | eof
  | ioError (message : String)
deriving Repr, DecidableEq

/-- Observable state of the demultiplexer session: contents delivered to
the message and error channels (in delivery order), the control requests
handed to dispatcher goroutines, and whether each channel has been
closed. -/
structure SessionState where
  messages : List JsonObj
  errEvents : List ErrEvent
  dispatched : List JsonObj
  messagesClosed : Bool
  errorsClosed : Bool
deriving Repr

/-- The per-line body of `readLoop`, iterated over the lines returned by
`reader.ReadString('\n')` before the terminating read error: skip the line
when it equals `""`, emit a decode error when `json.Unmarshal` fails, hand
objects whose `type` is `"control_request"` to the dispatcher, and push
every other object onto the message channel.  `decode` abstracts
`json.Unmarshal` into `map[string]interface{}`. -/
def processLines (decode : String → Option JsonObj) :
    List String → SessionState
  | [] =>
    { messages := [], errEvents := [], dispatched := [],
      messagesClosed := false, errorsClosed := false }
  | line :: rest =>
    let s := processLines decode rest
    if line = "" then s
    else
      match decode line with
      | none => { s with errEvents := ErrEvent.jsonDecode line :: s.errEvents }
      | some data =>
        if (data.lookup "type").bind Json.asStr = some "control_request" then
          { s with dispatched := data :: s.dispatched }
        else
          { s with messages := data :: s.messages }

/-- `readLoop`: process each line in input order, then observe the read
error that ends the stream: a clean `io.EOF` is silent, any other error is
sent to the error channel.  The loop itself returns without closing either
channel. -/
def runReadLoop (decode : String → Option JsonObj) (lines : List String)
    (term : Terminator) : SessionState :=
  let s := processLines decode lines
  match term with
  | Terminator.eof => s
  | Terminator.ioError e =>
    { s with errEvents := s.errEvents ++ [ErrEvent.connection e] }

/-- `Stop`: cancel the context, wait for the read loop, then close the
message channel and the error channel. -/
def stopSession (s : SessionState) : SessionState :=
  { s with messagesClosed := true, errorsClosed := true }

/-- Modelled from the spec: the conversation envelopes of an input
sequence — the decoded objects of the non-empty, well-formed lines whose
`type` is not the control-request marker, in input order.  This is the
sequence the FIFO property says the Message Sink must yield. -/
def conversationEnvelopes (decode : String → Option JsonObj)
    (lines : List String) : List JsonObj :=
  lines.filterMap fun line =>
    if line = "" then none
    else
      match decode line with
      | none => none
      | some data =>
        if (data.lookup "type").bind Json.asStr = some "control_request" then
          none
        else
          some data

/-- The decode-error events of an input sequence, in input order. -/
def decodeErrorEvents (decode : String → Option JsonObj)
    (lines : List String) : List ErrEvent :=
  lines.filterMap fun line =>
    if line = "" then none
    else
      match decode line with
      | none => some (ErrEvent.jsonDecode line)
      | some _ => none

theorem conversationEnvelopes_cons (decode : String → Option JsonObj)
    (line : String) (rest : List String) :
    conversationEnvelopes decode (line :: rest)
      = if line = "" then conversationEnvelopes decode rest
        else
          match decode line with
          | none => conversationEnvelopes decode rest
          | some data =>
            if (data.lookup "type").bind Json.asStr = some "control_request" then
              conversationEnvelopes decode rest
            else
              data :: conversationEnvelopes decode rest := by
  unfold conversationEnvelopes
  rw [List.filterMap_cons]
  by_cases hline : line = ""
  · simp [hline]
  · simp only [if_neg hline]
    cases hdec : decode line with
    | none => simp
    | some data =>
      by_cases hty : (data.lookup "type").bind Json.asStr
          = some "control_request"
      · simp [hty]
      · simp [hty]

theorem decodeErrorEvents_cons (decode : String → Option JsonObj)
    (line : String) (rest : List String) :
    decodeErrorEvents decode (line :: rest)
      = if line = "" then decodeErrorEvents decode rest
        else
          match decode line with
          | none => ErrEvent.jsonDecode line :: decodeErrorEvents decode rest
          | some _ => decodeErrorEvents decode rest := by
  unfold decodeErrorEvents
  rw [List.filterMap_cons]
  by_cases hline : line = ""
  · simp [hline]
  · simp only [if_neg hline]
    cases hdec : decode line with
    | none => simp
    | some data => simp

theorem processLines_messages (decode : String → Option JsonObj)
    (lines : List String) :
    (processLines decode lines).messages = conversationEnvelopes decode lines := by
  induction lines with
  | nil => rfl
  | cons line rest ih =>
    rw [conversationEnvelopes_cons]
    unfold processLines
    dsimp only
    by_cases hline : line = ""
    · simp only [if_pos hline]
      exact ih
    · simp only [if_neg hline]
      cases hdec : decode line with
      | none => exact ih
      | some data =>
        by_cases hty : (data.lookup "type").bind Json.asStr
            = some "control_request"
        · simp only [if_pos hty]
          exact ih
        · simp only [if_neg hty]
          simpa using ih

theorem processLines_errEvents (decode : String → Option JsonObj)
    (lines : List String) :
    (processLines decode lines).errEvents = decodeErrorEvents decode lines := by
  induction lines with
  | nil => rfl
  | cons line rest ih =>
    rw [decodeErrorEvents_cons]
    unfold processLines
    dsimp only
    by_cases hline : line = ""
    · simp only [if_pos hline]
      exact ih
    · simp only [if_neg hline]
      cases hdec : decode line with
      | none => simpa using ih
      | some data =>
        by_cases hty : (data.lookup "type").bind Json.asStr
            = some "control_request"
        · simp only [if_pos hty]
          exact ih
        · simp only [if_neg hty]
          exact ih

/-- C2: whatever the input lines and however the stream ends, the message
channel receives exactly the well-formed conversation envelopes (decoded
objects whose `type` is not `"control_request"`), in input order. -/
theorem message_sink_fifo (decode : String → Option JsonObj)
    (lines : List String) (term : Terminator) :
    (runReadLoop decode lines term).messages
      = conversationEnvelopes decode lines := by
  unfold runReadLoop
  cases term with
  | eof => exact processLines_messages decode lines
  | ioError e => simpa using processLines_messages decode lines

/-- C6: a non-empty line that fails JSON decoding contributes exactly one
decode-error event to the Error Sink, tagged with the offending raw line;
the loop does not terminate there, and the Message Sink contents are
exactly those of the remaining lines — in particular a valid conversation
line after the malformed one is still delivered. -/
theorem decode_error_isolated (decode : String → Option JsonObj)
    (line : String) (rest : List String) (term : Terminator)
    (hne : line ≠ "") (hdec : decode line = none) :
    (runReadLoop decode (line :: rest) term).errEvents
        = ErrEvent.jsonDecode line :: (runReadLoop decode rest term).errEvents
    ∧ (runReadLoop decode (line :: rest) term).messages
        = (runReadLoop decode rest term).messages := by
  unfold runReadLoop
  cases term with
  | eof =>
    constructor
    · rw [processLines]
      simp [hne, hdec]
    · rw [processLines]
      simp [hne, hdec]
  | ioError e =>
    constructor
    · rw [processLines]
      simp [hne, hdec]
    · rw [processLines]
      simp [hne, hdec]

/-- Witness for C6: the spec's Scenario D — a malformed line `not-json`
followed by a valid conversation line; applying the theorem under a decoder
that accepts only the valid line. -/
theorem decode_error_isolated_witness :
    ((runReadLoop
        (fun s => if s = "good-line"
          then some [("type", Json.str "result")] else none)
        ["not-json", "good-line"] Terminator.eof).errEvents
      = ErrEvent.jsonDecode "not-json" ::
          (runReadLoop
            (fun s => if s = "good-line"
              then some [("type", Json.str "result")] else none)
            ["good-line"] Terminator.eof).errEvents)
    ∧ ((runReadLoop
        (fun s => if s = "good-line"
          then some [("type", Json.str "result")] else none)
        ["not-json", "good-line"] Terminator.eof).messages
      = (runReadLoop
          (fun s => if s = "good-line"
            then some [("type", Json.str "result")] else none)
          ["good-line"] Terminator.eof).messages) :=
  decode_error_isolated _ "not-json" ["good-line"]
    Terminator.eof (by decide) rfl

/-- C7 (code bug): a blank line of the stream reaches the loop as the
string `"\n"` — `ReadString('\n')` keeps the delimiter — so the `line == ""`
skip never fires; the line is instead fed to the JSON decoder, which fails
on pure whitespace, and a decode-error event is emitted to the Error Sink
instead of the claimed silent skip. -/
theorem empty_line_not_skipped (decode : String → Option JsonObj)
    (h : decode "\n" = none) :
    runReadLoop decode ["\n"] Terminator.eof
      = { messages := [], errEvents := [ErrEvent.jsonDecode "\n"],
          dispatched := [], messagesClosed := false, errorsClosed := false } := by
  unfold runReadLoop processLines processLines
  simp [h]

/-- Witness for C7's theorem: any decoder rejecting the whitespace-only
line, e.g. the one rejecting everything. -/
theorem empty_line_not_skipped_witness :
    runReadLoop (fun _ => none) ["\n"] Terminator.eof
      = { messages := [], errEvents := [ErrEvent.jsonDecode "\n"],
          dispatched := [], messagesClosed := false, errorsClosed := false } :=
  empty_line_not_skipped (fun _ => none) rfl

/-- C5 counterexample: on a stream that ends (clean EOF here, and likewise
after an I/O error) the read loop returns with both sinks still open —
closing happens only in `Stop`, not in the loop, contradicting the claim
that observing end-of-stream closes both sinks. -/
theorem read_loop_leaves_sinks_open :
    ((runReadLoop (fun _ => none) [] Terminator.eof).messagesClosed = false)
    ∧ ((runReadLoop (fun _ => none) [] Terminator.eof).errorsClosed = false)
    ∧ ((runReadLoop (fun _ => none) []
        (Terminator.ioError "read: broken pipe")).messagesClosed = false)
    ∧ ((runReadLoop (fun _ => none) []
        (Terminator.ioError "read: broken pipe")).errorsClosed = false) :=
  ⟨rfl, rfl, rfl, rfl⟩

theorem processLines_closed_messages (decode : String → Option JsonObj)
    (lines : List String) :
    (processLines decode lines).messagesClosed = false
      ∧ (processLines decode lines).errorsClosed = false := by
  induction lines with
  | nil => exact ⟨rfl, rfl⟩
  | cons line rest ih =>
    unfold processLines
    dsimp only
    by_cases hline : line = ""
    · simpa [hline] using ih
    · simp only [if_neg hline]
      cases hdec : decode line with
      | none => simpa using ih
      | some data =>
        by_cases hty : (data.lookup "type").bind Json.asStr
            = some "control_request"
        · simpa [hty] using ih
        · simpa [hty] using ih

/-- C5 amended: when the read loop observes end-of-stream or an I/O error
it stops reading; an I/O error surfaces exactly one connection error on the
Error Sink after the per-line events, while a clean EOF surfaces nothing
beyond the decode errors; the loop itself leaves both sinks open, and they
are closed only when `Stop()` is subsequently invoked (as session teardown
does), at which point a blocked consumer observes end-of-sequence. -/
theorem read_loop_termination_and_stop (decode : String → Option JsonObj)
    (lines : List String) (e : String) :
    ((runReadLoop decode lines (Terminator.ioError e)).errEvents
        = (runReadLoop decode lines Terminator.eof).errEvents
            ++ [ErrEvent.connection e])
    ∧ ((runReadLoop decode lines Terminator.eof).errEvents
        = decodeErrorEvents decode lines)
    ∧ (∀ term, (runReadLoop decode lines term).messagesClosed = false
        ∧ (runReadLoop decode lines term).errorsClosed = false)
    ∧ (∀ term, (stopSession (runReadLoop decode lines term)).messagesClosed = true
        ∧ (stopSession (runReadLoop decode lines term)).errorsClosed = true) := by
  refine ⟨?_, ?_, ?_, ?_⟩
  · simp [runReadLoop]
  · simpa [runReadLoop] using processLines_errEvents decode lines
  · intro term
    cases term <;> simp [runReadLoop, processLines_closed_messages, stopSession]
  · intro term
    cases term <;> simp [runReadLoop, stopSession]


/-- One observable teardown side effect of `Close` (pipe closes, process
kill/wait, context cancellation, query stop, channel closes). -/
inductive TeardownEffect where
  | closedStdin
  | closedStdout
  | closedStderr
  | killedProcess
  | waitedProcess
  | cancelledContext
  | stoppedQuery
  | closedMessageChan
  | closedErrorChan
deriving Repr, DecidableEq

/-- State of a `SubprocessTransport` relevant to `Close`: the `connected`
flag and whether each of `stdin`, `stdout`, `stderr` and `cmd` (with its
process) is non-nil. -/
structure TransportState where
  connected : Bool
  stdin : Bool
  stdout : Bool
  stderr : Bool
  cmd : Bool
deriving Repr, DecidableEq

/-- `SubprocessTransport.Close`: an already-disconnected transport returns
nil immediately; otherwise clear the connected flag and the references,
close each present pipe, kill and wait for the process if present, and
return nil. -/
def transportClose (t : TransportState) :
    TransportState × List TeardownEffect × Option String :=
  if !t.connected then (t, [], none)
  else
    ({ connected := false, stdin := false, stdout := false, stderr := false,
       cmd := false },
     (if t.stdin then [TeardownEffect.closedStdin] else [])
       ++ (if t.stdout then [TeardownEffect.closedStdout] else [])
       ++ (if t.stderr then [TeardownEffect.closedStderr] else [])
       ++ (if t.cmd then
            [TeardownEffect.killedProcess, TeardownEffect.waitedProcess]
          else []),
     none)

/-- State of a `ClaudeSDKClient` relevant to `Close`: the `connected` flag,
whether `query` is non-nil, and the transport (`none` for a nil
transport). -/
structure ClientState where
  connected : Bool
  hasQuery : Bool
  transport : Option TransportState
deriving Repr, DecidableEq

/-- `ClaudeSDKClient.Close`: a client that is not connected returns nil
immediately; otherwise clear the flag, cancel the context, stop the query
handler if present, and — when a transport exists — return the transport's
`Close` result (the trailing channel closes are reached only with a nil
transport). -/
def clientClose (c : ClientState) :
    ClientState × List TeardownEffect × Option String :=
  if !c.connected then (c, [], none)
  else
    let effects0 := TeardownEffect.cancelledContext ::
      (if c.hasQuery then [TeardownEffect.stoppedQuery] else [])
    match c.transport with
    | some t =>
      let r := transportClose t
      ({ connected := false, hasQuery := c.hasQuery, transport := some r.1 },
       effects0 ++ r.2.1, r.2.2)
    | none =>
      ({ connected := false, hasQuery := c.hasQuery, transport := none },
       effects0 ++ [TeardownEffect.closedMessageChan,
         TeardownEffect.closedErrorChan],
       none)

theorem transportClose_disconnects (t : TransportState) :
    (transportClose t).1.connected = false := by
  unfold transportClose
  by_cases h : t.connected
  · simp [h]
  · simp only [Bool.not_eq_true] at h
    simp [h]

theorem clientClose_disconnects (c : ClientState) :
    (clientClose c).1.connected = false := by
  unfold clientClose
  by_cases h : c.connected
  · cases c.transport <;> simp [h]
  · simp only [Bool.not_eq_true] at h
    simp [h]

theorem transportClose_of_disconnected (t : TransportState)
    (h : t.connected = false) : transportClose t = (t, [], none) := by
  unfold transportClose
  simp [h]

theorem clientClose_of_disconnected (c : ClientState)
    (h : c.connected = false) : clientClose c = (c, [], none) := by
  unfold clientClose
  simp [h]

/-- C8: `Close` is idempotent on both the client and the transport — a
second call after any first call returns a nil error, performs no teardown
side effect (no pipe close, no process kill, no channel close), and leaves
the state exactly as the first call left it. -/
theorem close_idempotent (c : ClientState) (t : TransportState) :
    (clientClose (clientClose c).1 = ((clientClose c).1, [], none))
    ∧ (transportClose (transportClose t).1 = ((transportClose t).1, [], none)) :=
  ⟨clientClose_of_disconnected _ (clientClose_disconnects c),
   transportClose_of_disconnected _ (transportClose_disconnects t)⟩

/-- Signed 64-bit wrap-around, the overflow behavior of Go's `int` under
`requestCounter++` on 64-bit platforms. -/
def wrap64 (i : Int) : Int :=
  (i + 9223372036854775808) % 18446744073709551616 - 9223372036854775808

/-- Decimal rendering of a natural number, as `fmt.Sprintf("%d", _)`
produces it. -/
def natToDecimal (n : Nat) : String :=
  if n = 0 then "0"
  else String.mk (((Nat.digits 10 n).reverse).map fun d => Char.ofNat (48 + d))

/-- Decimal rendering of an integer, as `fmt.Sprintf("%d", _)` produces
it. -/
def intToDecimal (i : Int) : String :=
  if i < 0 then "-" ++ natToDecimal i.natAbs else natToDecimal i.toNat

/-- `generateRequestID`: under the counter mutex, increment the shared
`requestCounter` (a Go `int`, hence with 64-bit wrap-around) and return
`fmt.Sprintf("req_%d", requestCounter)` together with the new counter. -/
def generateRequestID (c : Int) : String × Int :=
  let c1 := wrap64 (c + 1)
  ("req_" ++ intToDecimal c1, c1)

/-- The counter value after `n` invocations of `generateRequestID` in a
session (the counter starts at the zero value). -/
def requestCounterAfter : Nat → Int
  | 0 => 0
  | n + 1 => (generateRequestID (requestCounterAfter n)).2

/-- The request id returned by the `n`-th invocation (0-based) of
`generateRequestID` in a session. -/
def nthRequestID (n : Nat) : String :=
  (generateRequestID (requestCounterAfter n)).1

/-- Inverse of the digit-to-character map on decimal digits. -/
def digitOfChar (ch : Char) : Nat := ch.toNat - 48

theorem digitOfChar_round (d : Nat) (hd : d < 10) :
    digitOfChar (Char.ofNat (48 + d)) = d := by
  revert d
  decide

theorem digitChar_ne_dash (d : Nat) (hd : d < 10) :
    Char.ofNat (48 + d) ≠ '-' := by
  revert d
  decide

theorem map_digitOfChar_round (l : List Nat) (h : ∀ d ∈ l, d < 10) :
    (l.map fun d => Char.ofNat (48 + d)).map digitOfChar = l := by
  induction l with
  | nil => rfl
  | cons a l ih =>
    simp only [List.map_cons]
    rw [digitOfChar_round a (h a (List.mem_cons_self a l)),
      ih fun d hd => h d (List.mem_cons_of_mem a hd)]

theorem natToDecimal_data_map (n : Nat) (hn : n ≠ 0) :
    (natToDecimal n).data
      = ((Nat.digits 10 n).reverse).map fun d => Char.ofNat (48 + d) := by
  unfold natToDecimal
  simp [hn]

theorem natToDecimal_inj (m n : Nat) (h : natToDecimal m = natToDecimal n) :
    m = n := by
  by_cases hm : m = 0
  · by_cases hn : n = 0
    · rw [hm, hn]
    · exfalso
      rw [hm] at h
      have hd := congrArg String.data h
      rw [natToDecimal_data_map n hn] at hd
      have hd0 : (natToDecimal 0).data = ['0'] := rfl
      rw [hd0] at hd
      have hmap := congrArg (List.map digitOfChar) hd
      rw [map_digitOfChar_round _ fun d hmem =>
        Nat.digits_lt_base (by norm_num) (List.mem_reverse.mp hmem)] at hmap
      have hrev := congrArg List.reverse hmap.symm
      rw [List.reverse_reverse] at hrev
      have : n = Nat.ofDigits 10 (Nat.digits 10 n) :=
        (Nat.ofDigits_digits 10 n).symm
      rw [hrev] at this
      simp [Nat.ofDigits, digitOfChar] at this
      exact hn this
  · by_cases hn : n = 0
    · exfalso
      rw [hn] at h
      have hd := congrArg String.data h
      rw [natToDecimal_data_map m hm] at hd
      have hd0 : (natToDecimal 0).data = ['0'] := rfl
      rw [hd0] at hd
      have hmap := congrArg (List.map digitOfChar) hd
      rw [map_digitOfChar_round _ fun d hmem =>
        Nat.digits_lt_base (by norm_num) (List.mem_reverse.mp hmem)] at hmap
      have hrev := congrArg List.reverse hmap
      rw [List.reverse_reverse] at hrev
      have hmz : m = Nat.ofDigits 10 (Nat.digits 10 m) :=
        (Nat.ofDigits_digits 10 m).symm
      rw [hrev] at hmz
      simp [Nat.ofDigits, digitOfChar] at hmz
      exact hm hmz
    · have hd := congrArg String.data h
      rw [natToDecimal_data_map m hm, natToDecimal_data_map n hn] at hd
      have hmap := congrArg (List.map digitOfChar) hd
      rw [map_digitOfChar_round _ fun d hmem =>
          Nat.digits_lt_base (by norm_num) (List.mem_reverse.mp hmem),
        map_digitOfChar_round _ fun d hmem =>
          Nat.digits_lt_base (by norm_num) (List.mem_reverse.mp hmem)] at hmap
      have hdig := congrArg List.reverse hmap
      rw [List.reverse_reverse, List.reverse_reverse] at hdig
      have hmv : m = Nat.ofDigits 10 (Nat.digits 10 m) :=
        (Nat.ofDigits_digits 10 m).symm
      rw [hdig] at hmv
      rw [hmv, Nat.ofDigits_digits]

theorem dash_not_mem_natToDecimal (n : Nat) :
    ('-' : Char) ∉ (natToDecimal n).data := by
  by_cases hn : n = 0
  · rw [hn]
    decide
  · rw [natToDecimal_data_map n hn]
    intro hmem
    rcases List.mem_map.mp hmem with ⟨d, hd, hch⟩
    exact digitChar_ne_dash d
      (Nat.digits_lt_base (by norm_num) (List.mem_reverse.mp hd)) hch

theorem string_append_cancel (s x y : String) (h : s ++ x = s ++ y) :
    x = y := by
  have hd := congrArg String.data h
  simp only [String.data_append] at hd
  exact String.ext (List.append_cancel_left hd)

theorem intToDecimal_inj (a b : Int) (h : intToDecimal a = intToDecimal b) :
    a = b := by
  unfold intToDecimal at h
  by_cases ha : a < 0
  · by_cases hb : b < 0
    · rw [if_pos ha, if_pos hb] at h
      have hx := string_append_cancel _ _ _ h
      have := natToDecimal_inj _ _ hx
      omega
    · rw [if_pos ha, if_neg hb] at h
      exfalso
      have hd := congrArg String.data h
      simp only [String.data_append] at hd
      exact dash_not_mem_natToDecimal b.toNat
        (hd ▸ List.mem_append_left _ (by decide))
  · by_cases hb : b < 0
    · rw [if_neg ha, if_pos hb] at h
      exfalso
      have hd := congrArg String.data h
      simp only [String.data_append] at hd
      exact dash_not_mem_natToDecimal a.toNat
        (hd ▸ List.mem_append_left _ (by decide))
    · rw [if_neg ha, if_neg hb] at h
      have := natToDecimal_inj _ _ h
      omega

theorem wrap64_wrap64_add (a b : Int) :
    wrap64 (wrap64 a + b) = wrap64 (a + b) := by
  unfold wrap64
  omega

theorem requestCounterAfter_eq (n : Nat) :
    requestCounterAfter n = wrap64 (n : Int) := by
  induction n with
  | zero =>
    show (0 : Int) = wrap64 0
    unfold wrap64
    norm_num
  | succ n ih =>
    show (generateRequestID (requestCounterAfter n)).2 = wrap64 ((n : Int) + 1)
    unfold generateRequestID
    dsimp only
    rw [ih, wrap64_wrap64_add]

/-- C9: within one session, two distinct invocations of the outbound
request-id generator return distinct ids — the counter is incremented once
per call under its mutex and, as long as the session issues fewer than
`2^64` requests (the wrap-around period of Go's 64-bit `int`), the decimal
ids `req_%d` never repeat. -/
theorem request_ids_never_repeat (i j : Nat) (hij : i < j)
    (hj : j < 18446744073709551616) : nthRequestID i ≠ nthRequestID j := by
  intro h
  unfold nthRequestID generateRequestID at h
  dsimp only at h
  have hx := string_append_cancel _ _ _ h
  have hv := intToDecimal_inj _ _ hx
  rw [requestCounterAfter_eq, requestCounterAfter_eq,
    wrap64_wrap64_add, wrap64_wrap64_add] at hv
  unfold wrap64 at hv
  omega

/-- Witness for C9: the first two invocations return `req_1` and `req_2`,
which are distinct. -/
theorem request_ids_never_repeat_witness : nthRequestID 0 ≠ nthRequestID 1 :=
  request_ids_never_repeat 0 1 (by norm_num) (by norm_num)

/-- A message delivered on the channel `Query` returns: either a parsed
message (with a flag recording whether it is a `*types.ResultMessage`) or a
`SystemMessage` with `Subtype: "error"` carrying an error text in its
`Data["error"]` field. -/
inductive SDKMessage where
  | systemError (errText : String)
  | parsed (isResult : Bool) (payload : JsonObj)
deriving Repr

/-- One event observed by `Query`'s processing loop: an envelope from the
query handler's message channel together with the outcome of
`internal.ParseMessage` on it, or an error from the query handler's error
channel. -/
inductive QueryEvent where
  | message (parseResult : Except String SDKMessage)
  | errEvent (message : String)

/-- The body of `Query`'s `for`/`select` loop: a parse failure becomes an
error `SystemMessage` and the loop continues; a parsed message is forwarded
and a `*types.ResultMessage` ends the loop; an event from the error channel
becomes an error `SystemMessage`.  The loop also ends when the channels
close (end of the event list). -/
def queryLoop : List QueryEvent → List SDKMessage
  | [] => []
  | QueryEvent.message (Except.error e) :: rest =>
    SDKMessage.systemError e :: queryLoop rest
  | QueryEvent.message (Except.ok msg) :: rest =>
    match msg with
    | SDKMessage.parsed true payload =>
      [SDKMessage.parsed true payload]
    | m => m :: queryLoop rest
  | QueryEvent.errEvent e :: rest =>
    SDKMessage.systemError e :: queryLoop rest

/-- What `Query` produces: the contents of the returned message channel,
whether that channel was closed, and the function's error return value. -/
structure QueryOutcome where
  channel : List SDKMessage
  channelClosed : Bool
  retErr : Option String
deriving Repr

/-- The `Query` function of `query.go`: it always returns the channel and a
nil error; the goroutine closes the channel on exit (`defer close`) and
converts a `Connect`, `Start` or `Initialize` failure into a single
`SystemMessage` with subtype `"error"` carrying the error text, then
returns; otherwise it runs the processing loop. -/
def queryRun (connectErr startErr initErr : Option String)
    (events : List QueryEvent) : QueryOutcome :=
  { channel :=
      match connectErr with
      | some e => [SDKMessage.systemError e]
      | none =>
        match startErr with
        | some e => [SDKMessage.systemError e]
        | none =>
          match initErr with
          | some e => [SDKMessage.systemError e]
          | none => queryLoop events,
    channelClosed := true,
    retErr := none }

/-- C10: `Query` always returns a nil error; a connection, start or
initialization failure is never the function's error value but is delivered
on the returned channel as a single `SystemMessage` with subtype `"error"`
carrying the error text, after which the channel is closed. -/
theorem query_returns_nil_error (connectErr startErr initErr : Option String)
    (events : List QueryEvent) (e : String) :
    ((queryRun connectErr startErr initErr events).retErr = none)
    ∧ (queryRun (some e) startErr initErr events
        = { channel := [SDKMessage.systemError e], channelClosed := true,
            retErr := none })
    ∧ (queryRun none (some e) initErr events
        = { channel := [SDKMessage.systemError e], channelClosed := true,
            retErr := none })
    ∧ (queryRun none none (some e) events
        = { channel := [SDKMessage.systemError e], channelClosed := true,
            retErr := none }) :=
  ⟨rfl, rfl, rfl, rfl⟩
